import Mathlib

/-!
Verification of the canary feature-flag library.

The development shallowly embeds the evaluation core of the repository:

* `src/lib/utils/hash.ts` — `hashString`, `isInRollout`, `assignVariant`;
* `src/lib/features.remote.ts` — `checkFeature` and the per-key body of the
  batch query `checkFeatures`;
* `src/lib/utils/configLoader.ts` — `getFeatureConfig` is a plain lookup in
  the `features` mapping of the config snapshot, modelled as an association
  list.

JavaScript numbers are modelled as exact rationals.  Every comparison the
code performs on hash values has the shape `|h| * 100 / 2147483647 ⋛ p` or
`⌊|h| * n / 2147483647⌋` with `|h| ≤ 2^31` and small integers `p`, `n`;
because 2147483647 is prime, the only inputs on which those comparisons sit
exactly on a boundary are `|h| = 0` and `|h| = 2147483647`, where the IEEE
double computation is exact as well, and away from a boundary the rational
value is at distance at least `1 / 2147483647 ≈ 4.7e-10` from it, far above
the roundoff of the double computation (≈ 2.3e-14).  Hence the rational
model and the floating-point code decide every comparison identically.

JavaScript `undefined`/`null` string values are modelled as `Option.none`,
and JavaScript truthiness on strings (where the empty string is falsy) by
`jsTruthy`/`jsOr` below.
-/

namespace Canary

/-- `ToInt32`: the coercion JavaScript applies in `hash = hash & hash`
(and implicitly in `hash << 5`): reduce mod `2^32` into `[-2^31, 2^31)`. -/
def toInt32 (n : Int) : Int :=
  (n + 2 ^ 31) % 2 ^ 32 - 2 ^ 31

/-- One loop iteration of `hashString` in `src/lib/utils/hash.ts`:
`hash = (hash << 5) - hash + char; hash = hash & hash`.  Both 32-bit
coercions together amount to `toInt32 (31 * hash + char)`, since the
intermediate double arithmetic is exact (magnitudes stay below `2^33`). -/
def hashStep (h : Int) (c : Nat) : Int :=
  toInt32 (31 * h + c)

/-- The signed 32-bit accumulator left by `hashString`'s loop on `s`. -/
def hashInt (s : String) : Int :=
  s.data.foldl (fun h c => hashStep h c.toNat) 0

/-- `hashString` from `src/lib/utils/hash.ts`:
`return Math.abs(hash) / 2147483647`. -/
def hashString (s : String) : ℚ :=
  ((hashInt s).natAbs : ℚ) / 2147483647

/-- `isInRollout` from `src/lib/utils/hash.ts`:
`hashString(userId + ":" + featureKey + ":rollout") * 100 <= rollout`. -/
def isInRollout (userId featureKey : String) (rollout : ℚ) : Bool :=
  decide (hashString (userId ++ ":" ++ featureKey ++ ":rollout") * 100 ≤ rollout)

/-- `assignVariant` from `src/lib/utils/hash.ts`.  JavaScript indexing
`variants[index]` yields `undefined` when `index` is out of range, which the
`Option` result of `List.get?` reflects. -/
def assignVariant (userId featureKey : String) (variants : List String)
    (rollout : ℚ) : Option String :=
  if variants.isEmpty then none
  else
    let rolloutHash := hashString (userId ++ ":" ++ featureKey ++ ":rollout")
    if rolloutHash * 100 > rollout then none
    else
      let variantHash := hashString (userId ++ ":" ++ featureKey ++ ":variant")
      variants.get? (Int.toNat ⌊variantHash * variants.length⌋)

/-- JavaScript truthiness of a possibly-absent string: `undefined`, `null`
and the empty string are falsy. -/
def jsTruthy : Option String → Bool
  | none => false
  | some s => !s.isEmpty

/-- JavaScript `a || b` on possibly-absent strings: the left value unless it
is falsy, else the right value (even when that is itself falsy). -/
def jsOr (a b : Option String) : Option String :=
  if jsTruthy a then a else b

/-- A feature definition, `FeatureDefinition` in `src/lib/types/index.ts`.
`rollout` is a JavaScript number; optional fields are `Option`s. -/
structure FeatureDef where
  enabled : Bool
  rollout : Option ℚ := none
  variants : Option (List String) := none
  defaultVariant : Option String := none
  userGroups : Option (List String) := none
  deriving DecidableEq

/-- The user context read from cookies by `getUserContext`: `userId`,
`groups`, and the persisted `variants` object (a string-keyed map,
modelled as an association list). -/
structure UserContext where
  userId : String
  groups : List String
  variants : List (String × String) := []
  deriving DecidableEq

/-- `FeatureCheckResult`: the record returned by the evaluators.  A missing
`variant` field (JavaScript `undefined`) is `none`. -/
structure FeatureCheckResult where
  enabled : Bool
  variant : Option String := none
  reason : String
  deriving DecidableEq

/-- The config snapshot: the `features` mapping of `FeatureFlagsConfig`.
(The optional `routes` mapping plays no part in feature evaluation and is
omitted.)  `getFeatureConfig key` in `src/lib/utils/configLoader.ts` is
`config.features[featureKey]`, i.e. `features.lookup key` here. -/
structure FeatureFlagsConfig where
  features : List (String × FeatureDef)
  deriving DecidableEq

/-- `checkFeature` from `src/lib/features.remote.ts`, with the config
snapshot and the user context passed explicitly (the remote function
obtains them from `getFeatureConfig` and `getUserContext`). -/
def checkFeature (cfg : FeatureFlagsConfig) (userContext : UserContext)
    (featureKey : String) : FeatureCheckResult :=
  match cfg.features.lookup featureKey with
  | none =>
    { enabled := false, reason := "Feature not found" }
  | some featureDef =>
    if !featureDef.enabled then
      { enabled := false, reason := "Feature is globally disabled" }
    else if (match featureDef.userGroups with
        | some gs => !gs.isEmpty && !(gs.any fun g => userContext.groups.contains g)
        | none => false) then
      { enabled := false, reason := "User not in required group" }
    else if !isInRollout userContext.userId featureKey (featureDef.rollout.getD 100) then
      { enabled := false, reason := "User not in rollout percentage" }
    else
      match featureDef.variants with
      | some vs =>
        if !vs.isEmpty then
          let persisted := userContext.variants.lookup featureKey
          let variant :=
            if jsTruthy persisted then persisted
            else jsOr (jsOr (assignVariant userContext.userId featureKey vs
              (featureDef.rollout.getD 100)) featureDef.defaultVariant) vs.head?
          { enabled := true, variant := variant, reason := "Feature enabled with variant" }
        else
          { enabled := true, reason := "Feature enabled" }
      | none =>
        { enabled := true, reason := "Feature enabled" }

/-- The body of the `for` loop of `checkFeatures` in
`src/lib/features.remote.ts`: the result stored under one key of the batch.
The code inlines a "simplified check" rather than calling `checkFeature`;
in particular its enabled branch returns `userContext.variants[key]` as the
variant without ever computing a fresh assignment. -/
def checkFeaturesEntry (cfg : FeatureFlagsConfig) (userContext : UserContext)
    (key : String) : FeatureCheckResult :=
  match cfg.features.lookup key with
  | none =>
    { enabled := false, reason := "Feature not found" }
  | some featureDef =>
    if !featureDef.enabled then
      { enabled := false, reason := "Feature is globally disabled" }
    else if (match featureDef.userGroups with
        | some gs => !gs.isEmpty && !(gs.any fun g => userContext.groups.contains g)
        | none => false) then
      { enabled := false, reason := "User not in required group" }
    else if !isInRollout userContext.userId key (featureDef.rollout.getD 100) then
      { enabled := false, reason := "User not in rollout percentage" }
    else
      { enabled := true, variant := userContext.variants.lookup key,
        reason := "Feature enabled" }

/-- `checkFeatures` from `src/lib/features.remote.ts`: the batch query,
as the association of each requested key with its stored result.  (The
JavaScript `results` record assigns each key in loop order; a duplicated
key is overwritten with the identical recomputed result, so the record's
final binding for a key in the list is `checkFeaturesEntry` of that key,
which is what `List.lookup` reads off this list.) -/
def checkFeatures (cfg : FeatureFlagsConfig) (userContext : UserContext)
    (featureKeys : List String) : List (String × FeatureCheckResult) :=
  featureKeys.map fun key => (key, checkFeaturesEntry cfg userContext key)

/-- A config with one feature that is globally disabled but carries a
`userGroups` list — the `internal-disabled` shape from the repository's
test fixtures. -/
def cfgInternalDisabled : FeatureFlagsConfig :=
  ⟨[("internal-tools", { enabled := false, userGroups := some ["internal"] })]⟩

/-- A user who is a member of the `internal` group. -/
def userInInternal : UserContext :=
  { userId := "u1", groups := ["internal"] }

/-- A config with one enabled feature at 25% rollout restricted to the
`beta` group — the `beta-with-rollout` shape from the test fixtures. -/
def cfgPromo : FeatureFlagsConfig :=
  ⟨[("promo", { enabled := true, rollout := some 25, userGroups := some ["beta"] })]⟩

/-- A user who is a member of the `beta` group. -/
def userInBeta : UserContext :=
  { userId := "user-1", groups := ["beta"] }

/-- An enabled A/B-test feature at 100% rollout — the `ab-test` shape
from the repository's test fixtures. -/
def abTestDef : FeatureDef :=
  { enabled := true
    rollout := some 100
    variants := some ["control", "variant-a", "variant-b"]
    defaultVariant := some "control" }

/-- The config holding just the A/B-test feature above. -/
def cfgAbTest : FeatureFlagsConfig :=
  ⟨[("ab-test", abTestDef)]⟩

/-- A user with no groups and no persisted variants. -/
def userPlain : UserContext :=
  { userId := "u1", groups := [] }

/-- A user whose cookie persists the empty string as the variant for
`ab-test`. -/
def userEmptyPersisted : UserContext :=
  { userId := "u1", groups := [], variants := [("ab-test", "")] }

end Canary

section Evaluation

attribute [local semireducible] Rat.mul Rat.inv
set_option maxRecDepth 8000

open Canary

-- model sanity: the hash of the empty string is 0, as in the JS code
example : hashInt "" = 0 := by decide
example : hashString "" = 0 := by decide

/-- C4: the spec claims `hashString x ∈ [0,1)` for every string, and the
code's own unit tests assert `hash < 1`; but on `"polygenelubricants"` the
32-bit accumulator is `-2^31`, `Math.abs` gives `2^31`, and dividing by
`2^31 - 1` yields a value strictly greater than 1.  This theorem evaluates
the code at that input. -/
theorem hashString_exceeds_one_at_polygenelubricants :
    hashString "polygenelubricants" = 2147483648 / 2147483647 ∧
    1 < hashString "polygenelubricants" := by
  constructor <;> decide

/-- C5: the spec claims rollout 0 excludes every user and rollout 100
includes every user.  Both fail: the namespaced hash of
`"0A446?7:f:rollout"` is exactly 0, so `0 * 100 <= 0` admits that user at
rollout 0; the 32-bit hash of `"2N4>5K9:f:rollout"` is `-2^31`, so the
normalized hash exceeds 1 and `hash * 100 <= 100` rejects that user at
rollout 100.  This theorem evaluates the code at both inputs. -/
theorem isInRollout_boundaries_violated :
    isInRollout "0A446?7" "f" 0 = true ∧
    isInRollout "2N4>5K9" "f" 100 = false := by
  constructor <;> decide

/-- C10: the claim says a user included by `isInRollout` always receives a
variant from `assignVariant`.  The rollout decisions indeed agree (same
namespaced hash), but the variant index `floor(variantHash * length)` can
reach `length` when the variant hash is at least 1: for user `"0>N2IB4"`
and feature `"f"` the 32-bit variant hash is `-2^31`, the index is out of
range, and `variants[index]` is `undefined` although the user passes the
rollout check.  This theorem evaluates the code at that input. -/
theorem assignVariant_none_despite_rollout_inclusion :
    isInRollout "0>N2IB4" "f" 100 = true ∧
    assignVariant "0>N2IB4" "f" ["a"] 100 = none := by
  constructor <;> decide

/-- C1: the spec, and the repository's own tests ("should prioritize
userGroups over enabled flag", fixture comment "Disabled but internal can
access"), say group membership grants access regardless of the `enabled`
flag.  The code checks `enabled` first: a member of `internal` evaluating
a disabled feature with `userGroups = ["internal"]` gets `enabled = false`
with the globally-disabled reason.  This theorem evaluates the code at
that input. -/
theorem checkFeature_disabled_beats_group_membership :
    checkFeature cfgInternalDisabled userInInternal "internal-tools" =
      { enabled := false, variant := none, reason := "Feature is globally disabled" } := by
  decide

/-- C2: the spec, the demo page ("Users in beta/internal groups bypass
rollout and get 100% access") and the repository's tests ("should
prioritize userGroups over rollout percentage") say group members are
enabled regardless of the rollout hash.  The code sends group members
through the rollout check: user `"user-1"` of group `beta` has
`hash("user-1:promo:rollout") * 100 ≈ 47.8 > 25` and is rejected.  (A
non-member is rejected outright with the group reason, not subjected to
rollout as the claim's second half says.)  This theorem evaluates the code
at that input. -/
theorem checkFeature_group_member_subject_to_rollout :
    checkFeature cfgPromo userInBeta "promo" =
      { enabled := false, variant := none, reason := "User not in rollout percentage" } := by
  decide

/-- C9: a feature key absent from the config's `features` mapping yields
`enabled = false` with the "Feature not found" reason; the evaluator is a
total function, so it cannot throw. -/
theorem checkFeature_not_found (cfg : FeatureFlagsConfig) (user : UserContext)
    (key : String) (h : cfg.features.lookup key = none) :
    checkFeature cfg user key =
      { enabled := false, variant := none, reason := "Feature not found" } := by
  unfold checkFeature
  rw [h]

/-- Witness for C9: the empty config at key `"missing"`. -/
theorem checkFeature_not_found_witness :
    (FeatureFlagsConfig.mk []).features.lookup "missing" = none ∧
    checkFeature (FeatureFlagsConfig.mk []) userPlain "missing" =
      { enabled := false, variant := none, reason := "Feature not found" } :=
  ⟨by decide, checkFeature_not_found (FeatureFlagsConfig.mk []) userPlain "missing" (by decide)⟩

/-- C8: rollout monotonicity — a user inside the rollout at percentage
`p1` stays inside at any percentage `p2 ≥ p1`, since the hash value is
fixed and the comparison is `hash * 100 ≤ p`. -/
theorem isInRollout_monotone (u f : String) (p1 p2 : ℚ)
    (h1 : isInRollout u f p1 = true) (h12 : p1 ≤ p2) :
    isInRollout u f p2 = true := by
  unfold isInRollout at h1 ⊢
  exact decide_eq_true (le_trans (of_decide_eq_true h1) h12)

/-- Witness for C8: user `"user-1"`, feature `"promo"`, 47.9% vs 50%. -/
theorem isInRollout_monotone_witness :
    isInRollout "user-1" "promo" 48 = true ∧ (48 : ℚ) ≤ 50 ∧
    isInRollout "user-1" "promo" 50 = true :=
  ⟨by decide, by norm_num,
    isInRollout_monotone "user-1" "promo" 48 50 (by decide) (by norm_num)⟩

/-- C7: `assignVariant` returns `none` on an empty variants list whatever
the rollout; it returns `none` exactly when `isInRollout` (which hashes
the same `userId:featureKey:rollout` string) would exclude the user; and
for an included user it returns `variants[⌊variantHash · length⌋]`, where
JavaScript indexing out of range (`undefined`) is `List.get?`'s `none`. -/
theorem assignVariant_characterization (u f : String) (vs : List String) (p : ℚ) :
    assignVariant u f vs p =
      if vs.isEmpty then none
      else if isInRollout u f p then
        vs.get? (Int.toNat ⌊hashString (u ++ ":" ++ f ++ ":variant") * vs.length⌋)
      else none := by
  unfold assignVariant isInRollout
  by_cases he : vs.isEmpty
  · simp [he]
  · by_cases hr : hashString (u ++ ":" ++ f ++ ":rollout") * 100 ≤ p
    · have hng : ¬ (p < hashString (u ++ ":" ++ f ++ ":rollout") * 100) := not_lt.mpr hr
      simp [he, hng, hr]
    · have hg : p < hashString (u ++ ":" ++ f ++ ":rollout") * 100 := lt_of_not_le hr
      simp [he, hg, hr]

/-- Looking a key up in the association list built by mapping `f` over a
key list finds `f key` whenever `key` occurs in the list. -/
theorem lookup_map_self {β : Type} (f : String → β) (keys : List String) (key : String)
    (h : key ∈ keys) :
    (keys.map fun k => (k, f k)).lookup key = some (f key) := by
  induction keys with
  | nil => cases h
  | cons k ks ih =>
    by_cases hk : key = k
    · subst hk
      simp [List.lookup]
    · have hb : (key == k) = false := beq_false_of_ne hk
      have hmem : key ∈ ks := (List.mem_cons.mp h).resolve_left hk
      simp [List.lookup, hb, ih hmem]

/-- C3 counterexample: for the A/B-test config and a user with no
persisted variant, the single evaluator computes and returns a variant
(`"variant-b"` for user `"u1"`), while the batch loop returns the feature
with no variant at all — the batch body never calls `assignVariant`.  The
two evaluators therefore do not return the same variant value for this
key. -/
theorem checkFeatures_drops_fresh_variant :
    checkFeature cfgAbTest userPlain "ab-test" =
      { enabled := true, variant := some "variant-b",
        reason := "Feature enabled with variant" } ∧
    checkFeatures cfgAbTest userPlain ["ab-test"] =
      [("ab-test", { enabled := true, variant := none, reason := "Feature enabled" })] := by
  constructor <;> decide

/-- C3: amended batch/single consistency.  For every fixed config
snapshot, user context and key list, the batch stores under each listed
key exactly the loop body's result; that result always carries the same
`enabled` value as the single `checkFeature`; and its variant also agrees
whenever the feature defines a non-empty variants list and the user has a
non-empty persisted variant for the key.  (When no variant is persisted,
the batch omits the variant that `checkFeature` would compute, as the
counterexample shows.) -/
theorem checkFeatures_agrees_with_checkFeature (cfg : FeatureFlagsConfig)
    (user : UserContext) (keys : List String) (key : String) (h : key ∈ keys) :
    (checkFeatures cfg user keys).lookup key = some (checkFeaturesEntry cfg user key) ∧
    (checkFeaturesEntry cfg user key).enabled = (checkFeature cfg user key).enabled ∧
    (∀ d vs v, cfg.features.lookup key = some d → d.variants = some vs →
      vs.isEmpty = false → user.variants.lookup key = some v → v.isEmpty = false →
      (checkFeaturesEntry cfg user key).variant = (checkFeature cfg user key).variant) := by
  refine ⟨lookup_map_self _ keys key h, ?_, ?_⟩
  · unfold checkFeature checkFeaturesEntry
    cases hd : cfg.features.lookup key with
    | none => rfl
    | some d =>
      dsimp only
      cases hv : d.variants with
      | none => dsimp only; split_ifs <;> rfl
      | some vs => dsimp only; split_ifs <;> rfl
  · intro d vs v hd hv hne hpv hvne
    unfold checkFeature checkFeaturesEntry
    rw [hd]
    dsimp only
    rw [hv, hpv]
    dsimp only
    split_ifs <;> simp_all [jsTruthy]

/-- Witness for C3's amended theorem: the A/B-test config, a user with a
persisted non-empty variant, and the key list `["ab-test"]`. -/
theorem checkFeatures_agrees_with_checkFeature_witness :
    ("ab-test" ∈ ["ab-test"]) ∧
    ((checkFeatures cfgAbTest userInInternal ["ab-test"]).lookup "ab-test" =
        some (checkFeaturesEntry cfgAbTest userInInternal "ab-test") ∧
      (checkFeaturesEntry cfgAbTest userInInternal "ab-test").enabled =
        (checkFeature cfgAbTest userInInternal "ab-test").enabled ∧
      (∀ d vs v, cfgAbTest.features.lookup "ab-test" = some d → d.variants = some vs →
        vs.isEmpty = false → userInInternal.variants.lookup "ab-test" = some v →
        v.isEmpty = false →
        (checkFeaturesEntry cfgAbTest userInInternal "ab-test").variant =
          (checkFeature cfgAbTest userInInternal "ab-test").variant)) :=
  ⟨by decide,
    checkFeatures_agrees_with_checkFeature cfgAbTest userInInternal ["ab-test"] "ab-test"
      (by decide)⟩

/-- C6 counterexample: a variant persisted as the empty string is present
in `userContext.variants`, yet `checkFeature` discards it — the code's
`if (!variant)` treats the empty string as absent (JavaScript falsiness)
and recomputes, returning `"variant-b"` rather than the persisted `""`. -/
theorem checkFeature_ignores_empty_persisted_variant :
    userEmptyPersisted.variants.lookup "ab-test" = some "" ∧
    checkFeature cfgAbTest userEmptyPersisted "ab-test" =
      { enabled := true, variant := some "variant-b",
        reason := "Feature enabled with variant" } ∧
    (some "variant-b" : Option String) ≠ some "" := by
  refine ⟨by decide, by decide, by decide⟩

/-- C6: amended variant resolution.  When the key resolves to an enabled
definition, the user passes the group and rollout gates, and `variants`
is a non-empty list, the result is enabled; its variant is the persisted
one when that is present *and non-empty*, and otherwise the
`assignVariant` value with JavaScript `||` fallback to `defaultVariant`
and then to the first variants entry (`jsOr` falls through on `null` and
on the empty string alike). -/
theorem checkFeature_variant_resolution (cfg : FeatureFlagsConfig)
    (user : UserContext) (key : String) (d : FeatureDef) (vs : List String)
    (hd : cfg.features.lookup key = some d)
    (he : d.enabled = true)
    (hg : (match d.userGroups with
        | some gs => !gs.isEmpty && !(gs.any fun g => user.groups.contains g)
        | none => false) = false)
    (hr : isInRollout user.userId key (d.rollout.getD 100) = true)
    (hv : d.variants = some vs)
    (hne : vs.isEmpty = false) :
    (checkFeature cfg user key).enabled = true ∧
    (∀ v, user.variants.lookup key = some v → v.isEmpty = false →
      (checkFeature cfg user key).variant = some v) ∧
    (jsTruthy (user.variants.lookup key) = false →
      (checkFeature cfg user key).variant =
        jsOr (jsOr (assignVariant user.userId key vs (d.rollout.getD 100))
          d.defaultVariant) vs.head?) := by
  unfold checkFeature
  rw [hd]
  dsimp only
  rw [hv]
  dsimp only
  refine ⟨?_, ?_, ?_⟩
  · split_ifs <;> simp_all [jsTruthy]
  · intro v hpv hvne
    rw [hpv]
    split_ifs <;> simp_all [jsTruthy]
  · intro hnt
    split_ifs <;> simp_all [jsTruthy]

/-- Witness for C6's amended theorem: the A/B-test config and a user with
no persisted variant; the fallback chain produces `"variant-b"`. -/
theorem checkFeature_variant_resolution_witness :
    cfgAbTest.features.lookup "ab-test" = some abTestDef ∧
    abTestDef.enabled = true ∧
    (match abTestDef.userGroups with
      | some gs => !gs.isEmpty && !(gs.any fun g => userPlain.groups.contains g)
      | none => false) = false ∧
    isInRollout userPlain.userId "ab-test" (abTestDef.rollout.getD 100) = true ∧
    abTestDef.variants = some ["control", "variant-a", "variant-b"] ∧
    (["control", "variant-a", "variant-b"] : List String).isEmpty = false ∧
    ((checkFeature cfgAbTest userPlain "ab-test").enabled = true ∧
      (∀ v, userPlain.variants.lookup "ab-test" = some v → v.isEmpty = false →
        (checkFeature cfgAbTest userPlain "ab-test").variant = some v) ∧
      (jsTruthy (userPlain.variants.lookup "ab-test") = false →
        (checkFeature cfgAbTest userPlain "ab-test").variant =
          jsOr (jsOr (assignVariant userPlain.userId "ab-test"
            ["control", "variant-a", "variant-b"] (abTestDef.rollout.getD 100))
            abTestDef.defaultVariant)
            (["control", "variant-a", "variant-b"] : List String).head?)) :=
  ⟨by decide, by decide, by decide, by decide, by decide, by decide,
    checkFeature_variant_resolution cfgAbTest userPlain "ab-test" abTestDef
      ["control", "variant-a", "variant-b"] (by decide) (by decide) (by decide)
      (by decide) (by decide) (by decide)⟩

end Evaluation
